import Mathlib

/-!
The plib formatting and logging channels (`src/lib/netlist/plib/pfmtlog.h`).

A shallow embedding of the header: the `ptype_traits` registry, the `pfmt`
formatter, the gated writer `pfmt_writer_t`, the severity channel
`plog_channel` and the six-channel bundle `plog_base`.

Conventions of the embedding.

* A C++ type is a constructor of `CType`; a value of that type is an element
  of `CType.denote`.  `CValue` pairs a value with its static type.
* `pfmt::format_element` is declared in the header and defined elsewhere.
  It is taken as a parameter `fe` everywhere: every result below holds for
  every implementation of it.
* Whether plain `char` is signed is fixed by the platform; it is the
  parameter `char_signed`.
* `ptype_traits<T>` is declared for every `T` and defined only for the
  listed specializations.  The lookup returns `none` where the header gives
  no definition, and a formatter operation that needs the missing traits
  returns `none`: such a call is not a program.  In the same way
  `operator()` and `log` return `none` on the inputs for which the
  instantiation of their body is ill-formed, whatever the gates are: the `if`
  in the body is a run-time one and the body is instantiated as a whole.
* A pure virtual member function is the parameter or field carrying its
  implementation (`vdowrite`, `plog_dispatch_intf.vlog`); the state of the
  outside world that such a function acts on is an arbitrary type `ω`.
-/

namespace plib

/-- The enumeration `plog_level` declared with `P_ENUM`. -/
inductive plog_level where
  | DEBUG
  | INFO
  | VERBOSE
  | WARNING
  | ERROR
  | FATAL
  deriving DecidableEq, Repr

/-- A floating point datum: a finite number, an infinity, or a NaN. -/
inductive FloatVal where
  | finite (q : ℚ)
  | inf (negative : Bool)
  | nan
  deriving DecidableEq

/-- The C++ argument types the header distinguishes.  `other n is_signed`
stands for any type without a `ptype_traits` specialization, with the value
`std::numeric_limits` gives for its `is_signed`. -/
inductive CType where
  | bool
  | char
  | schar
  | uchar
  | short
  | ushort
  | int
  | uint
  | long
  | ulong
  | llong
  | ullong
  | float
  | double
  | charPtr
  | voidPtr
  | other (n : Nat) (is_signed : Bool)
  deriving DecidableEq, Repr

/-- The values of a C++ type: truth values, integers, floating point data,
the text a narrow pointer points to, an address, or an uninterpreted object. -/
@[reducible]
def CType.denote : CType → Type
  | .bool => Bool
  | .char => Int
  | .schar => Int
  | .uchar => Int
  | .short => Int
  | .ushort => Int
  | .int => Int
  | .uint => Int
  | .long => Int
  | .ulong => Int
  | .llong => Int
  | .ullong => Int
  | .float => FloatVal
  | .double => FloatVal
  | .charPtr => String
  | .voidPtr => Nat
  | .other _ _ => Nat

/-- A value together with its static type: what is handed to the variadic
parameter of `format_element`. -/
structure CValue where
  ty : CType
  val : ty.denote

/-- The constant `std::numeric_limits<T>::is_signed`. -/
def numeric_limits_is_signed (char_signed : Bool) : CType → Bool
  | .bool => false
  | .char => char_signed
  | .schar => true
  | .uchar => false
  | .short => true
  | .ushort => false
  | .int => true
  | .uint => false
  | .long => true
  | .ulong => false
  | .llong => true
  | .ullong => false
  | .float => true
  | .double => true
  | .charPtr => false
  | .voidPtr => false
  | .other _ is_signed => is_signed

/-- The static members of a traits class for the type `t`. -/
structure traits (t : CType) where
  cast : t.denote → CValue
  is_signed : Bool
  size_spec : String
  fmt_spec : Char

/-- The template `ptype_traits_base<T>` with its specialization for `bool`. -/
def ptype_traits_base (char_signed : Bool) : (t : CType) → traits t
  | .bool =>
    { cast := fun (x : Bool) => CValue.mk .uint (if x then (1 : Int) else (0 : Int))
      is_signed := numeric_limits_is_signed char_signed .bool
      size_spec := ""
      fmt_spec := 'u' }
  | t =>
    { cast := fun x => ⟨t, x⟩
      is_signed := numeric_limits_is_signed char_signed t
      size_spec := ""
      fmt_spec := 'u' }

/-- The template `ptype_traits<T>`: the primary template has no definition,
each specialization inherits `ptype_traits_base<T>` and overrides members. -/
def ptype_traits (char_signed : Bool) : (t : CType) → Option (traits t)
  | .bool => some (ptype_traits_base char_signed .bool)
  | .char =>
    some { ptype_traits_base char_signed .char with
      size_spec := "h"
      fmt_spec := if (ptype_traits_base char_signed .char).is_signed then 'd' else 'u' }
  | .short =>
    some { ptype_traits_base char_signed .short with size_spec := "h", fmt_spec := 'd' }
  | .int =>
    some { ptype_traits_base char_signed .int with fmt_spec := 'd' }
  | .long =>
    some { ptype_traits_base char_signed .long with size_spec := "l", fmt_spec := 'd' }
  | .llong =>
    some { ptype_traits_base char_signed .llong with size_spec := "ll", fmt_spec := 'd' }
  | .schar =>
    some { ptype_traits_base char_signed .schar with size_spec := "h", fmt_spec := 'd' }
  | .uchar =>
    some { ptype_traits_base char_signed .uchar with size_spec := "h", fmt_spec := 'u' }
  | .ushort =>
    some { ptype_traits_base char_signed .ushort with size_spec := "h", fmt_spec := 'u' }
  | .uint =>
    some { ptype_traits_base char_signed .uint with fmt_spec := 'u' }
  | .ulong =>
    some { ptype_traits_base char_signed .ulong with size_spec := "l", fmt_spec := 'u' }
  | .ullong =>
    some { ptype_traits_base char_signed .ullong with size_spec := "ll", fmt_spec := 'u' }
  | .float =>
    some { ptype_traits_base char_signed .float with fmt_spec := 'f' }
  | .double =>
    some { ptype_traits_base char_signed .double with fmt_spec := 'f' }
  | .charPtr =>
    some { ptype_traits_base char_signed .charPtr with
      cast := fun x => ⟨.charPtr, x⟩
      fmt_spec := 's' }
  | .voidPtr => none
  | .other _ _ => none

/-- The data members of `pfmt`. -/
structure pfmt where
  m_str : String
  m_arg : Nat

/-- The constructor `pfmt(const pstring &fmt)`. -/
def pfmt.new (fmt : String) : pfmt :=
  { m_str := fmt, m_arg := 0 }

/-- The conversion `operator pstring() const`. -/
def pfmt.pstring (self : pfmt) : String :=
  self.m_str

/-- The signature of `format_element(l, fmt_spec, ...)` applied to one
variadic argument; the result is the formatter after the call. -/
abbrev format_element_t : Type :=
  pfmt → String → Char → CValue → pfmt

/-- The conversion `static_cast<double>(x)` of a `float`, which keeps the value. -/
def static_cast_double (x : CType.float.denote) : CType.double.denote :=
  x

/-- The member `e(const double &x)`. -/
def pfmt.e (fe : format_element_t) (self : pfmt) (x : CType.double.denote) : pfmt :=
  fe self "" 'e' ⟨.double, x⟩

/-- The member `g(const double &x)`. -/
def pfmt.g (fe : format_element_t) (self : pfmt) (x : CType.double.denote) : pfmt :=
  fe self "" 'g' ⟨.double, x⟩

/-- The member `e(const float &x)`. -/
def pfmt.e_float (fe : format_element_t) (self : pfmt) (x : CType.float.denote) : pfmt :=
  fe self "" 'e' ⟨.double, static_cast_double x⟩

/-- The member `g(const float &x)`. -/
def pfmt.g_float (fe : format_element_t) (self : pfmt) (x : CType.float.denote) : pfmt :=
  fe self "" 'g' ⟨.double, static_cast_double x⟩

/-- An argument of the call operator of `pfmt`, by the overload that takes it:
`operator()(const void *)`, `operator()(const pstring &)`, or one of the
templates `operator()(const T &)` and `operator()(const T *)`. -/
inductive Arg where
  | voidp (x : Nat)
  | pstr (x : String)
  | templ (x : CValue)

/-- The call operators of `pfmt`. -/
def pfmt.call (fe : format_element_t) (char_signed : Bool) (self : pfmt) : Arg → Option pfmt
  | .voidp x => some (fe self "" 'p' ⟨.voidPtr, x⟩)
  | .pstr x => some (fe self "" 's' ⟨.charPtr, x⟩)
  | .templ ⟨t, x⟩ =>
    match ptype_traits char_signed t with
    | some tr => some (fe self tr.size_spec tr.fmt_spec (tr.cast x))
    | none => none

/-- The member template `x(const T &x)`. -/
def pfmt.x (fe : format_element_t) (char_signed : Bool) (self : pfmt) (t : CType)
    (x : t.denote) : Option pfmt :=
  match ptype_traits char_signed t with
  | some tr => some (fe self tr.size_spec 'x' ⟨t, x⟩)
  | none => none

/-- The member template `o(const T &x)`. -/
def pfmt.o (fe : format_element_t) (char_signed : Bool) (self : pfmt) (t : CType)
    (x : t.denote) : Option pfmt :=
  match ptype_traits char_signed t with
  | some tr => some (fe self tr.size_spec 'o' ⟨t, x⟩)
  | none => none

/-- An argument whose type the formatter accepts: its overload is not a
template, or `ptype_traits` is defined for its type. -/
def Arg.registered (char_signed : Bool) : Arg → Bool
  | .voidp _ => true
  | .pstr _ => true
  | .templ v => (ptype_traits char_signed v.ty).isSome

/-- The value category of the expression that names a formatter. -/
inductive value_category where
  | lvalue
  | prvalue
  deriving DecidableEq, Repr

/-- Whether an expression of the given category can be bound to a parameter
of type `pfmt &`: a reference to non-const takes an lvalue only. -/
def binds_to_lvalue_ref : value_category → Bool
  | .lvalue => true
  | .prvalue => false

/-- Whether a body that hands `xlog(pfmt &fmt, ...)` a formatter expression
of category `c` and the arguments `args` can be instantiated: the formatter
expression binds to `pfmt &` and every argument has a registered type. -/
def instantiates (char_signed : Bool) (c : value_category) (args : List Arg) : Bool :=
  binds_to_lvalue_ref c && args.all (Arg.registered char_signed)

/-- The class template `pfmt_writer_t<build_enabled>`: its template argument
and its data member. -/
structure pfmt_writer_t where
  build_enabled : Bool
  m_enabled : Bool

/-- The constructor `pfmt_writer_t()`. -/
def pfmt_writer_t.new (build_enabled : Bool) : pfmt_writer_t :=
  { build_enabled := build_enabled, m_enabled := true }

/-- The private members `xlog(pfmt &fmt)` and `xlog(pfmt &fmt, X&& x, Args&&... args)`. -/
def pfmt_writer_t.xlog (fe : format_element_t) (char_signed : Bool) : pfmt → List Arg → Option pfmt
  | fmt, [] => some fmt
  | fmt, x :: args =>
    match pfmt.call fe char_signed fmt x with
    | some f => pfmt_writer_t.xlog fe char_signed f args
    | none => none

/-- The member template `log<enabled>(fmt, args...)`.  The result is the
object after the call and the world after the calls of `vdowrite`.  The body
hands `xlog` the expression `pfmt(fmt)`, a prvalue. -/
def pfmt_writer_t.log {ω : Type} (vdowrite : String → ω → ω) (fe : format_element_t)
    (char_signed : Bool) (self : pfmt_writer_t) (enabled : Bool) (fmt : String)
    (args : List Arg) (w : ω) : Option (pfmt_writer_t × ω) :=
  if instantiates char_signed .prvalue args then
    if self.build_enabled && enabled && self.m_enabled then
      match pfmt_writer_t.xlog fe char_signed (pfmt.new fmt) args with
      | some r => some (self, vdowrite r.pstring w)
      | none => none
    else
      some (self, w)
  else
    none

/-- The member template `operator()(fmt, args...)`.  The result is the
object after the call and the world after the calls of `vdowrite`.  The body
hands `xlog` the local variable `pf`, an lvalue. -/
def pfmt_writer_t.call {ω : Type} (vdowrite : String → ω → ω) (fe : format_element_t)
    (char_signed : Bool) (self : pfmt_writer_t) (fmt : String)
    (args : List Arg) (w : ω) : Option (pfmt_writer_t × ω) :=
  if instantiates char_signed .lvalue args then
    if self.build_enabled && self.m_enabled then
      let pf := pfmt.new fmt
      match pfmt_writer_t.xlog fe char_signed pf args with
      | some r => some (self, vdowrite r.pstring w)
      | none => none
    else
      some (self, w)
  else
    none

/-- The member `set_enabled(const bool v)`. -/
def pfmt_writer_t.set_enabled (self : pfmt_writer_t) (v : Bool) : pfmt_writer_t :=
  { self with m_enabled := v }

/-- The member `is_enabled() const`. -/
def pfmt_writer_t.is_enabled (self : pfmt_writer_t) : Bool :=
  self.m_enabled

/-- The interface `plog_dispatch_intf`: an object is its implementation of
the pure virtual `vlog`, acting on the world `ω`. -/
structure plog_dispatch_intf (ω : Type) where
  vlog : plog_level → String → ω → ω

/-- The class template `plog_channel<L, build_enabled>`, derived from
`pfmt_writer_t<build_enabled>`: the inherited part, the template argument
`L` and the data member `m_base`. -/
structure plog_channel (ω : Type) where
  writer : pfmt_writer_t
  L : plog_level
  m_base : plog_dispatch_intf ω

/-- The constructor `plog_channel(plog_dispatch_intf *b)`. -/
def plog_channel.new {ω : Type} (L : plog_level) (build_enabled : Bool)
    (b : plog_dispatch_intf ω) : plog_channel ω :=
  { writer := pfmt_writer_t.new build_enabled, L := L, m_base := b }

/-- The override `plog_channel<L, build_enabled>::vdowrite`. -/
def plog_channel.vdowrite {ω : Type} (self : plog_channel ω) (ls : String) (w : ω) : ω :=
  self.m_base.vlog self.L ls w

/-- The inherited `operator()` on a channel: `vdowrite` is the channel's override. -/
def plog_channel.call {ω : Type} (fe : format_element_t) (char_signed : Bool)
    (self : plog_channel ω) (fmt : String) (args : List Arg) (w : ω) :
    Option (plog_channel ω × ω) :=
  match self.writer.call self.vdowrite fe char_signed fmt args w with
  | some r => some ({ self with writer := r.1 }, r.2)
  | none => none

/-- The inherited `set_enabled` on a channel. -/
def plog_channel.set_enabled {ω : Type} (self : plog_channel ω) (v : Bool) : plog_channel ω :=
  { self with writer := self.writer.set_enabled v }

/-- The inherited `is_enabled` on a channel. -/
def plog_channel.is_enabled {ω : Type} (self : plog_channel ω) : Bool :=
  self.writer.is_enabled

/-- The class template `plog_base<debug_enabled>`: its six members. -/
structure plog_base (ω : Type) where
  debug : plog_channel ω
  info : plog_channel ω
  verbose : plog_channel ω
  warning : plog_channel ω
  error : plog_channel ω
  fatal : plog_channel ω

/-- The constructor `plog_base(plog_dispatch_intf *proxy)` of
`plog_base<debug_enabled>`; a member declared without a second template
argument takes the default `build_enabled = true`. -/
def plog_base.new {ω : Type} (debug_enabled : Bool) (proxy : plog_dispatch_intf ω) :
    plog_base ω :=
  { debug := plog_channel.new .DEBUG debug_enabled proxy
    info := plog_channel.new .INFO true proxy
    verbose := plog_channel.new .VERBOSE true proxy
    warning := plog_channel.new .WARNING true proxy
    error := plog_channel.new .ERROR true proxy
    fatal := plog_channel.new .FATAL true proxy }

/-- The call expression `writer(fmt, e1, ..., en)` in a caller with state
`σ`.  `operator()` takes its arguments as parameters `Args&&... args`, so
the argument expressions are evaluated before the body starts: `ev` is their
evaluation, in whichever order the compiler takes them, giving the argument
values and the caller's state afterwards; then the body runs on the values. -/
def pfmt_writer_t.call_expr {ω σ : Type} (vdowrite : String → ω → ω) (fe : format_element_t)
    (char_signed : Bool) (self : pfmt_writer_t) (fmt : String)
    (ev : σ → List Arg × σ) (s : σ) (w : ω) : Option (pfmt_writer_t × ω × σ) :=
  let r := ev s
  match self.call vdowrite fe char_signed fmt r.1 w with
  | some q => some (q.1, q.2, r.2)
  | none => none

/-- The chain `pfmt(fmt)(a1)(a2)...(aN)` written by hand: a formatter is made
from `fmt` and the arguments are consumed one after the other, first to last,
each by the call operator on the formatter the previous call returned. -/
def manual_chain (fe : format_element_t) (char_signed : Bool) (fmt : String)
    (args : List Arg) : Option pfmt :=
  args.foldlM (fun p a => pfmt.call fe char_signed p a) (pfmt.new fmt)

/-! Shared lemmas. -/

theorem xlog_nil (fe : format_element_t) (cs : Bool) (p : pfmt) :
    pfmt_writer_t.xlog fe cs p [] = some p := by
  simp [pfmt_writer_t.xlog]

theorem xlog_eq_foldlM (fe : format_element_t) (cs : Bool) (args : List Arg) (p : pfmt) :
    pfmt_writer_t.xlog fe cs p args = args.foldlM (fun q a => pfmt.call fe cs q a) p := by
  induction args generalizing p with
  | nil => simp [pfmt_writer_t.xlog]
  | cons a rest ih =>
    simp only [pfmt_writer_t.xlog, List.foldlM_cons]
    cases hc : pfmt.call fe cs p a with
    | none => simp
    | some q => simpa using ih q

theorem call_isSome_of_registered (fe : format_element_t) (cs : Bool) (p : pfmt) (a : Arg)
    (h : Arg.registered cs a = true) : ∃ q, pfmt.call fe cs p a = some q := by
  cases a with
  | voidp x => exact ⟨_, rfl⟩
  | pstr x => exact ⟨_, rfl⟩
  | templ v =>
    obtain ⟨t, x⟩ := v
    simp only [Arg.registered] at h
    cases ht : ptype_traits cs t with
    | none => simp [ht] at h
    | some tr => exact ⟨fe p tr.size_spec tr.fmt_spec (tr.cast x), by simp [pfmt.call, ht]⟩

theorem xlog_isSome_of_registered (fe : format_element_t) (cs : Bool) (args : List Arg)
    (p : pfmt) (h : ∀ a ∈ args, Arg.registered cs a = true) :
    ∃ r, pfmt_writer_t.xlog fe cs p args = some r := by
  induction args generalizing p with
  | nil => exact ⟨p, xlog_nil fe cs p⟩
  | cons a rest ih =>
    obtain ⟨q, hq⟩ := call_isSome_of_registered fe cs p a (h a (List.mem_cons_self a rest))
    obtain ⟨r, hr⟩ := ih q (fun b hb => h b (List.mem_cons_of_mem a hb))
    exact ⟨r, by simp [pfmt_writer_t.xlog, hq, hr]⟩

theorem call_none_of_not_registered (fe : format_element_t) (cs : Bool) (p : pfmt) (a : Arg)
    (h : Arg.registered cs a = false) : pfmt.call fe cs p a = none := by
  cases a with
  | voidp x => simp [Arg.registered] at h
  | pstr x => simp [Arg.registered] at h
  | templ v =>
    obtain ⟨t, x⟩ := v
    simp only [Arg.registered] at h
    cases ht : ptype_traits cs t with
    | none => simp [pfmt.call, ht]
    | some tr => simp [ht] at h

theorem xlog_none_of_not_registered (fe : format_element_t) (cs : Bool) (args : List Arg)
    (p : pfmt) (h : args.all (Arg.registered cs) = false) :
    pfmt_writer_t.xlog fe cs p args = none := by
  induction args generalizing p with
  | nil => simp at h
  | cons a rest ih =>
    cases ha : Arg.registered cs a with
    | false => simp [pfmt_writer_t.xlog, call_none_of_not_registered fe cs p a ha]
    | true =>
      have hrest : rest.all (Arg.registered cs) = false := by
        simpa [List.all_cons, ha] using h
      cases hc : pfmt.call fe cs p a with
      | none => simp [pfmt_writer_t.xlog, hc]
      | some q => simpa [pfmt_writer_t.xlog, hc] using ih q hrest

theorem instantiates_lvalue (cs : Bool) (args : List Arg) :
    instantiates cs .lvalue args = args.all (Arg.registered cs) := by
  simp [instantiates, binds_to_lvalue_ref]

theorem instantiates_of_xlog (fe : format_element_t) (cs : Bool) (args : List Arg)
    (p r : pfmt) (hr : pfmt_writer_t.xlog fe cs p args = some r) :
    instantiates cs .lvalue args = true := by
  rw [instantiates_lvalue]
  cases hall : args.all (Arg.registered cs) with
  | true => rfl
  | false =>
    rw [xlog_none_of_not_registered fe cs args p hall] at hr
    cases hr

theorem writer_call_of_xlog {ω : Type} (vdowrite : String → ω → ω) (fe : format_element_t)
    (cs : Bool) (self : pfmt_writer_t) (fmt : String) (args : List Arg) (w : ω) (r : pfmt)
    (hr : pfmt_writer_t.xlog fe cs (pfmt.new fmt) args = some r) :
    self.call vdowrite fe cs fmt args w
      = some (self, if self.build_enabled && self.m_enabled then vdowrite r.pstring w else w) := by
  have hi := instantiates_of_xlog fe cs args (pfmt.new fmt) r hr
  unfold pfmt_writer_t.call
  by_cases hg : (self.build_enabled && self.m_enabled) = true
  · simp [hi, hg, hr]
  · simp [hi, hg]

theorem writer_call_none_of_not_registered {ω : Type} (vdowrite : String → ω → ω)
    (fe : format_element_t) (cs : Bool) (self : pfmt_writer_t) (fmt : String)
    (args : List Arg) (w : ω) (h : args.all (Arg.registered cs) = false) :
    self.call vdowrite fe cs fmt args w = none := by
  simp [pfmt_writer_t.call, instantiates_lvalue, h]

/-! The registry and the formatter. -/

/-- C1: every specialization of `ptype_traits` gives the size modifier and
the conversion code of the policy table, `bool` is cast to the unsigned
integer 0 or 1, the cast for a narrow pointer is the identity, and
`operator()(const T &)` hands `format_element` exactly the size modifier, the
conversion code and the cast value of `T`. -/
theorem ptype_traits_policy_table (cs : Bool) (fe : format_element_t) (self : pfmt) :
    ((ptype_traits cs .bool).map (fun tr => (tr.size_spec, tr.fmt_spec)) = some ("", 'u')
      ∧ (ptype_traits cs .bool).map (fun tr => tr.cast false) = some ⟨.uint, (0 : Int)⟩
      ∧ (ptype_traits cs .bool).map (fun tr => tr.cast true) = some ⟨.uint, (1 : Int)⟩
      ∧ (ptype_traits cs .schar).map (fun tr => (tr.size_spec, tr.fmt_spec)) = some ("h", 'd')
      ∧ (ptype_traits cs .short).map (fun tr => (tr.size_spec, tr.fmt_spec)) = some ("h", 'd')
      ∧ (ptype_traits cs .uchar).map (fun tr => (tr.size_spec, tr.fmt_spec)) = some ("h", 'u')
      ∧ (ptype_traits cs .ushort).map (fun tr => (tr.size_spec, tr.fmt_spec)) = some ("h", 'u')
      ∧ (ptype_traits cs .char).map (fun tr => (tr.size_spec, tr.fmt_spec))
          = some ("h", if cs then 'd' else 'u')
      ∧ (ptype_traits cs .int).map (fun tr => (tr.size_spec, tr.fmt_spec)) = some ("", 'd')
      ∧ (ptype_traits cs .uint).map (fun tr => (tr.size_spec, tr.fmt_spec)) = some ("", 'u')
      ∧ (ptype_traits cs .long).map (fun tr => (tr.size_spec, tr.fmt_spec)) = some ("l", 'd')
      ∧ (ptype_traits cs .ulong).map (fun tr => (tr.size_spec, tr.fmt_spec)) = some ("l", 'u')
      ∧ (ptype_traits cs .llong).map (fun tr => (tr.size_spec, tr.fmt_spec)) = some ("ll", 'd')
      ∧ (ptype_traits cs .ullong).map (fun tr => (tr.size_spec, tr.fmt_spec)) = some ("ll", 'u')
      ∧ (ptype_traits cs .float).map (fun tr => (tr.size_spec, tr.fmt_spec)) = some ("", 'f')
      ∧ (ptype_traits cs .double).map (fun tr => (tr.size_spec, tr.fmt_spec)) = some ("", 'f')
      ∧ (ptype_traits cs .charPtr).map (fun tr => (tr.size_spec, tr.fmt_spec)) = some ("", 's')
      ∧ (∀ x : String, (ptype_traits cs .charPtr).map (fun tr => tr.cast x)
          = some ⟨.charPtr, x⟩))
    ∧ ((∀ x : Bool, pfmt.call fe cs self (.templ ⟨.bool, x⟩)
          = some (fe self "" 'u' ⟨.uint, if x then (1 : Int) else 0⟩))
      ∧ (∀ x : Int, pfmt.call fe cs self (.templ ⟨.schar, x⟩) = some (fe self "h" 'd' ⟨.schar, x⟩))
      ∧ (∀ x : Int, pfmt.call fe cs self (.templ ⟨.short, x⟩) = some (fe self "h" 'd' ⟨.short, x⟩))
      ∧ (∀ x : Int, pfmt.call fe cs self (.templ ⟨.uchar, x⟩) = some (fe self "h" 'u' ⟨.uchar, x⟩))
      ∧ (∀ x : Int, pfmt.call fe cs self (.templ ⟨.ushort, x⟩)
          = some (fe self "h" 'u' ⟨.ushort, x⟩))
      ∧ (∀ x : Int, pfmt.call fe cs self (.templ ⟨.char, x⟩)
          = some (fe self "h" (if cs then 'd' else 'u') ⟨.char, x⟩))
      ∧ (∀ x : Int, pfmt.call fe cs self (.templ ⟨.int, x⟩) = some (fe self "" 'd' ⟨.int, x⟩))
      ∧ (∀ x : Int, pfmt.call fe cs self (.templ ⟨.uint, x⟩) = some (fe self "" 'u' ⟨.uint, x⟩))
      ∧ (∀ x : Int, pfmt.call fe cs self (.templ ⟨.long, x⟩) = some (fe self "l" 'd' ⟨.long, x⟩))
      ∧ (∀ x : Int, pfmt.call fe cs self (.templ ⟨.ulong, x⟩) = some (fe self "l" 'u' ⟨.ulong, x⟩))
      ∧ (∀ x : Int, pfmt.call fe cs self (.templ ⟨.llong, x⟩)
          = some (fe self "ll" 'd' ⟨.llong, x⟩))
      ∧ (∀ x : Int, pfmt.call fe cs self (.templ ⟨.ullong, x⟩)
          = some (fe self "ll" 'u' ⟨.ullong, x⟩))
      ∧ (∀ x : FloatVal, pfmt.call fe cs self (.templ ⟨.float, x⟩)
          = some (fe self "" 'f' ⟨.float, x⟩))
      ∧ (∀ x : FloatVal, pfmt.call fe cs self (.templ ⟨.double, x⟩)
          = some (fe self "" 'f' ⟨.double, x⟩))
      ∧ (∀ x : String, pfmt.call fe cs self (.templ ⟨.charPtr, x⟩)
          = some (fe self "" 's' ⟨.charPtr, x⟩)))
    ∧ (∀ (t : CType) (tr : traits t) (x : t.denote), ptype_traits cs t = some tr →
        pfmt.call fe cs self (.templ ⟨t, x⟩)
          = some (fe self tr.size_spec tr.fmt_spec (tr.cast x))) := by
  refine ⟨?_, ?_, ?_⟩
  · cases cs <;>
      simp [ptype_traits, ptype_traits_base, numeric_limits_is_signed]
  · cases cs <;>
      simp [pfmt.call, ptype_traits, ptype_traits_base, numeric_limits_is_signed]
  · intro t tr x h
    simp [pfmt.call, h]

/-- C5: for a type with traits, `x` and `o` hand `format_element` the size
modifier of the type with the codes 'x' and 'o' whatever the type's own code
is, and `e` and `g` hand it no size modifier with the codes 'e' and 'g', for
a `double` and for a `float` widened to `double`. -/
theorem pfmt_overrides (cs : Bool) (fe : format_element_t) (self : pfmt) (t : CType)
    (tr : traits t) (x : t.denote) (h : ptype_traits cs t = some tr) :
    pfmt.x fe cs self t x = some (fe self tr.size_spec 'x' ⟨t, x⟩)
    ∧ pfmt.o fe cs self t x = some (fe self tr.size_spec 'o' ⟨t, x⟩)
    ∧ (∀ d : FloatVal, pfmt.e fe self d = fe self "" 'e' ⟨.double, d⟩)
    ∧ (∀ d : FloatVal, pfmt.g fe self d = fe self "" 'g' ⟨.double, d⟩)
    ∧ (∀ f : FloatVal, pfmt.e_float fe self f = fe self "" 'e' ⟨.double, f⟩)
    ∧ (∀ f : FloatVal, pfmt.g_float fe self f = fe self "" 'g' ⟨.double, f⟩) := by
  refine ⟨?_, ?_, ?_, ?_, ?_, ?_⟩
  · simp [pfmt.x, h]
  · simp [pfmt.o, h]
  · intro d; rfl
  · intro d; rfl
  · intro f; rfl
  · intro f; rfl

/-- Witness for C5 at `short`, with a `format_element` that appends the
directive it is given: the size modifier "h" is kept and the code is 'x'. -/
theorem pfmt_overrides_witness :
    ptype_traits true .short = some ⟨fun x => ⟨.short, x⟩, true, "h", 'd'⟩
    ∧ pfmt.x (fun p l c _ => pfmt.mk (p.m_str ++ l ++ c.toString) (p.m_arg + 1)) true
        (pfmt.new "%") .short (-3 : Int) = some (pfmt.mk "%hx" 1) :=
  ⟨rfl, (pfmt_overrides true (fun p l c _ => pfmt.mk (p.m_str ++ l ++ c.toString) (p.m_arg + 1))
    (pfmt.new "%") .short ⟨fun x => ⟨.short, x⟩, true, "h", 'd'⟩ (-3 : Int) rfl).1⟩

/-- C6, as stated, fails: for a type without a specialization the call
operator has no traits to resolve to, so it does not hand `format_element`
the fallback directive. -/
theorem unregistered_no_fallback :
    ptype_traits true (.other 0 true) = none
    ∧ pfmt.call (fun p l c _ => pfmt.mk (p.m_str ++ l ++ c.toString) (p.m_arg + 1)) true
        (pfmt.new "%") (.templ ⟨.other 0 true, (7 : Nat)⟩) = none
    ∧ pfmt.call (fun p l c _ => pfmt.mk (p.m_str ++ l ++ c.toString) (p.m_arg + 1)) true
        (pfmt.new "%") (.templ ⟨.other 0 true, (7 : Nat)⟩) ≠ some (pfmt.mk "%u" 1) := by
  refine ⟨rfl, rfl, ?_⟩
  simp [pfmt.call, ptype_traits]

/-- C6 amended: a type without a specialization has no `ptype_traits`, and
the call operator on a value of it is not defined; the record with no size
modifier, code 'u' and the identity cast is `ptype_traits_base` of that
type, which only specializations inherit. -/
theorem unregistered_has_no_traits (cs : Bool) (fe : format_element_t) (self : pfmt)
    (n : Nat) (sg : Bool) (x : Nat) :
    ptype_traits cs (.other n sg) = none
    ∧ pfmt.call fe cs self (.templ ⟨.other n sg, x⟩) = none
    ∧ (ptype_traits_base cs (.other n sg)).size_spec = ""
    ∧ (ptype_traits_base cs (.other n sg)).fmt_spec = 'u'
    ∧ (ptype_traits_base cs (.other n sg)).cast x = ⟨.other n sg, x⟩ := by
  refine ⟨rfl, ?_, rfl, rfl, rfl⟩
  simp [pfmt.call, ptype_traits]

/-- C7: what `xlog` returns is the chain `pfmt(fmt)(a1)...(aN)` written by
hand, every argument consumed once and from left to right on the formatter
the previous step returned; a writer with both gates open hands `vdowrite`
the text of that chain, and with no argument it hands over `fmt` itself. -/
theorem xlog_is_manual_chain {ω : Type} (vdowrite : String → ω → ω) (fe : format_element_t)
    (cs : Bool) (fmt : String) (args : List Arg) (w : ω) :
    pfmt_writer_t.xlog fe cs (pfmt.new fmt) args = manual_chain fe cs fmt args
    ∧ (∀ (p : pfmt) (a : Arg) (rest : List Arg),
        pfmt_writer_t.xlog fe cs p (a :: rest)
          = (pfmt.call fe cs p a).bind (fun q => pfmt_writer_t.xlog fe cs q rest))
    ∧ pfmt_writer_t.call vdowrite fe cs ⟨true, true⟩ fmt args w
        = (manual_chain fe cs fmt args).map
            (fun r => ((⟨true, true⟩ : pfmt_writer_t), vdowrite r.pstring w))
    ∧ pfmt_writer_t.call vdowrite fe cs ⟨true, true⟩ fmt [] w
        = some (⟨true, true⟩, vdowrite fmt w) := by
  have hx := xlog_eq_foldlM fe cs args (pfmt.new fmt)
  refine ⟨hx, ?_, ?_, ?_⟩
  · intro p a rest
    cases hc : pfmt.call fe cs p a <;> simp [pfmt_writer_t.xlog, hc]
  · unfold manual_chain
    rw [← hx]
    cases hr : pfmt_writer_t.xlog fe cs (pfmt.new fmt) args with
    | some r =>
      rw [writer_call_of_xlog vdowrite fe cs ⟨true, true⟩ fmt args w r hr]
      rfl
    | none =>
      cases hall : args.all (Arg.registered cs) with
      | false =>
        rw [writer_call_none_of_not_registered vdowrite fe cs ⟨true, true⟩ fmt args w hall]
        rfl
      | true =>
        obtain ⟨r, hr2⟩ := xlog_isSome_of_registered fe cs args (pfmt.new fmt)
          (fun a ha => List.all_eq_true.mp hall a ha)
        rw [hr] at hr2
        cases hr2
  · rw [writer_call_of_xlog vdowrite fe cs ⟨true, true⟩ fmt [] w (pfmt.new fmt)
      (xlog_nil fe cs (pfmt.new fmt))]
    rfl

/-! The gated writer. -/

/-- C2: on arguments of registered types `operator()` applies `vdowrite`
once, to the text `xlog` returns, when `build_enabled` and `m_enabled` are
both true, and leaves the world untouched otherwise: counting the calls of
`vdowrite` from zero gives one or zero; a writer with `build_enabled` true
and `m_enabled` false makes no call. -/
theorem writer_call_gated {ω : Type} (vdowrite : String → ω → ω) (fe : format_element_t)
    (cs : Bool) (self : pfmt_writer_t) (fmt : String) (args : List Arg) (w : ω)
    (h : ∀ a ∈ args, Arg.registered cs a = true) :
    (∃ r, pfmt_writer_t.xlog fe cs (pfmt.new fmt) args = some r
      ∧ self.call vdowrite fe cs fmt args w
          = some (self, if self.build_enabled && self.m_enabled
              then vdowrite r.pstring w else w))
    ∧ self.call (fun _ (n : Nat) => n + 1) fe cs fmt args 0
        = some (self, if self.build_enabled && self.m_enabled then 1 else 0)
    ∧ pfmt_writer_t.call vdowrite fe cs ⟨true, false⟩ fmt args w = some (⟨true, false⟩, w) := by
  obtain ⟨r, hr⟩ := xlog_isSome_of_registered fe cs args (pfmt.new fmt) h
  refine ⟨⟨r, hr, writer_call_of_xlog vdowrite fe cs self fmt args w r hr⟩, ?_, ?_⟩
  · rw [writer_call_of_xlog (fun _ (n : Nat) => n + 1) fe cs self fmt args 0 r hr]
  · rw [writer_call_of_xlog vdowrite fe cs ⟨true, false⟩ fmt args w r hr]
    rfl

/-- Witness for C2: an enabled writer called with an `unsigned int` and a
string, counting the calls of `vdowrite`. -/
theorem writer_call_gated_witness :
    (∀ a ∈ [Arg.templ ⟨.uint, (3 : Int)⟩, Arg.pstr "widgets"], Arg.registered true a = true)
    ∧ pfmt_writer_t.call (fun _ (n : Nat) => n + 1) (fun p _ _ _ => p) true ⟨true, true⟩
        "%d of %s" [Arg.templ ⟨.uint, (3 : Int)⟩, Arg.pstr "widgets"] 0
        = some (⟨true, true⟩, 1) :=
  ⟨by decide,
    (writer_call_gated (fun _ (n : Nat) => n + 1) (fun p _ _ _ => p) true ⟨true, true⟩
      "%d of %s" [Arg.templ ⟨.uint, (3 : Int)⟩, Arg.pstr "widgets"] 0 (by decide)).2.1⟩

/-- C8, the code at the failing input: `log<true>` on a writer with both
gates open and one `int` argument gives no call of `vdowrite`, since its
body hands `xlog` a prvalue and so has no instantiation, where `operator()`
on the same inputs applies `vdowrite` once; the same holds of `log` on every
input. -/
theorem log_has_no_instantiation {ω : Type} (vdowrite : String → ω → ω)
    (fe : format_element_t) (cs : Bool) (self : pfmt_writer_t) (enabled : Bool)
    (fmt : String) (args : List Arg) (w : ω) :
    pfmt_writer_t.log (fun _ (n : Nat) => n + 1) (fun p _ _ _ => p) true ⟨true, true⟩
        true "%d" [Arg.templ ⟨.int, (-5 : Int)⟩] 0 = none
    ∧ pfmt_writer_t.call (fun _ (n : Nat) => n + 1) (fun p _ _ _ => p) true ⟨true, true⟩
        "%d" [Arg.templ ⟨.int, (-5 : Int)⟩] 0 = some (⟨true, true⟩, 1)
    ∧ self.log vdowrite fe cs enabled fmt args w = none := by
  refine ⟨rfl, rfl, ?_⟩
  simp [pfmt_writer_t.log, instantiates, binds_to_lvalue_ref]

/-- C3, as stated, fails: with `build_enabled` false `operator()` makes no
call of `vdowrite`, but the argument expression of the call has been
evaluated: the caller's counter, which the expression increments, went from
0 to 1. -/
theorem disabled_call_evaluates_arguments :
    pfmt_writer_t.call_expr (fun _ (n : Nat) => n + 1) (fun p _ _ _ => p) true ⟨false, true⟩
        "%d" (fun (k : Nat) => ([Arg.templ ⟨.int, (k : Int)⟩], k + 1)) 0 0
      = some (⟨false, true⟩, 0, 1)
    ∧ pfmt_writer_t.call_expr (fun _ (n : Nat) => n + 1) (fun p _ _ _ => p) true ⟨false, true⟩
        "%d" (fun (k : Nat) => ([Arg.templ ⟨.int, (k : Int)⟩], k + 1)) 0 0
      ≠ some (⟨false, true⟩, 0, 0) := by
  have h : pfmt_writer_t.call_expr (fun _ (n : Nat) => n + 1) (fun p _ _ _ => p) true
      ⟨false, true⟩ "%d" (fun (k : Nat) => ([Arg.templ ⟨.int, (k : Int)⟩], k + 1)) 0 0
      = some (⟨false, true⟩, 0, 1) := rfl
  refine ⟨h, ?_⟩
  rw [h]
  simp

/-- C3 amended: with `build_enabled` false, whatever `m_enabled` is, a call
of `operator()` on arguments of registered types makes no call of
`vdowrite`; the argument expressions of the call are evaluated, and the
caller is left in the state their evaluation gives. -/
theorem disabled_call_no_sink {ω σ : Type} (vdowrite : String → ω → ω) (fe : format_element_t)
    (cs : Bool) (m_enabled : Bool) (fmt : String) (ev : σ → List Arg × σ) (s : σ) (w : ω)
    (h : ∀ a ∈ (ev s).1, Arg.registered cs a = true) :
    pfmt_writer_t.call_expr vdowrite fe cs ⟨false, m_enabled⟩ fmt ev s w
      = some (⟨false, m_enabled⟩, w, (ev s).2)
    ∧ pfmt_writer_t.call vdowrite fe cs ⟨false, m_enabled⟩ fmt (ev s).1 w
      = some (⟨false, m_enabled⟩, w) := by
  obtain ⟨r, hr⟩ := xlog_isSome_of_registered fe cs (ev s).1 (pfmt.new fmt) h
  have hc := writer_call_of_xlog vdowrite fe cs ⟨false, m_enabled⟩ fmt (ev s).1 w r hr
  refine ⟨?_, hc⟩
  unfold pfmt_writer_t.call_expr
  simp only [hc]
  rfl

/-- Witness for C3 amended: a disabled writer with its runtime flag true,
called with two argument expressions that each increment the caller's
counter. -/
theorem disabled_call_no_sink_witness :
    (∀ a ∈ ((fun (k : Nat) => ([Arg.templ ⟨.int, (k : Int)⟩, Arg.pstr "widgets"], k + 2)) 0).1,
        Arg.registered true a = true)
    ∧ pfmt_writer_t.call_expr (fun _ (n : Nat) => n + 1) (fun p _ _ _ => p) true ⟨false, true⟩
        "%d %s" (fun (k : Nat) => ([Arg.templ ⟨.int, (k : Int)⟩, Arg.pstr "widgets"], k + 2)) 0 0
      = some (⟨false, true⟩, 0, 2) :=
  ⟨by decide,
    (disabled_call_no_sink (fun _ (n : Nat) => n + 1) (fun p _ _ _ => p) true true "%d %s"
      (fun (k : Nat) => ([Arg.templ ⟨.int, (k : Int)⟩, Arg.pstr "widgets"], k + 2)) 0 0
      (by decide)).1⟩

/-! Channels and the bundle. -/

theorem channel_call_of_xlog {ω : Type} (fe : format_element_t) (cs : Bool)
    (self : plog_channel ω) (fmt : String) (args : List Arg) (w : ω) (r : pfmt)
    (hr : pfmt_writer_t.xlog fe cs (pfmt.new fmt) args = some r) :
    self.call fe cs fmt args w
      = some (self, if self.writer.build_enabled && self.writer.m_enabled
          then self.m_base.vlog self.L r.pstring w else w) := by
  unfold plog_channel.call
  rw [writer_call_of_xlog self.vdowrite fe cs self.writer fmt args w r hr]
  rfl

/-- C4: a channel of severity `L` whose gates are open, called on arguments
of registered types, applies `vlog` of its sink once, with `L` and with the
text `xlog` returns: a sink that records its calls ends with that one entry.
The members of a bundle carry the six severities in order and all hold the
sink given to the constructor. -/
theorem channel_forwards_to_vlog {ω : Type} (fe : format_element_t) (cs : Bool)
    (L : plog_level) (b : plog_dispatch_intf ω) (fmt : String) (args : List Arg) (w : ω)
    (debug_enabled : Bool) (h : ∀ a ∈ args, Arg.registered cs a = true) :
    (∃ r, pfmt_writer_t.xlog fe cs (pfmt.new fmt) args = some r
      ∧ plog_channel.call fe cs ⟨⟨true, true⟩, L, b⟩ fmt args w
          = some (⟨⟨true, true⟩, L, b⟩, b.vlog L r.pstring w)
      ∧ plog_channel.call fe cs ⟨⟨true, true⟩, L, ⟨fun l ls tr => tr ++ [(l, ls)]⟩⟩ fmt args []
          = some (⟨⟨true, true⟩, L, ⟨fun l ls tr => tr ++ [(l, ls)]⟩⟩, [(L, r.pstring)]))
    ∧ ((plog_base.new debug_enabled b).debug.L = .DEBUG
      ∧ (plog_base.new debug_enabled b).info.L = .INFO
      ∧ (plog_base.new debug_enabled b).verbose.L = .VERBOSE
      ∧ (plog_base.new debug_enabled b).warning.L = .WARNING
      ∧ (plog_base.new debug_enabled b).error.L = .ERROR
      ∧ (plog_base.new debug_enabled b).fatal.L = .FATAL)
    ∧ ((plog_base.new debug_enabled b).debug.m_base = b
      ∧ (plog_base.new debug_enabled b).info.m_base = b
      ∧ (plog_base.new debug_enabled b).verbose.m_base = b
      ∧ (plog_base.new debug_enabled b).warning.m_base = b
      ∧ (plog_base.new debug_enabled b).error.m_base = b
      ∧ (plog_base.new debug_enabled b).fatal.m_base = b) := by
  obtain ⟨r, hr⟩ := xlog_isSome_of_registered fe cs args (pfmt.new fmt) h
  refine ⟨⟨r, hr, ?_, ?_⟩, ⟨rfl, rfl, rfl, rfl, rfl, rfl⟩, ⟨rfl, rfl, rfl, rfl, rfl, rfl⟩⟩
  · rw [channel_call_of_xlog fe cs _ fmt args w r hr]
    rfl
  · rw [channel_call_of_xlog fe cs _ fmt args [] r hr]
    rfl

/-- Witness for C4: a WARNING channel with a recording sink, called with an
`unsigned int` and a string, records one entry of severity WARNING. -/
theorem channel_forwards_to_vlog_witness :
    (∀ a ∈ [Arg.templ ⟨.uint, (3 : Int)⟩, Arg.pstr "widgets"], Arg.registered true a = true)
    ∧ ∃ r, plog_channel.call (fun p _ _ _ => p) true
        ⟨⟨true, true⟩, .WARNING, ⟨fun l ls tr => tr ++ [(l, ls)]⟩⟩ "%d of %s"
        [Arg.templ ⟨.uint, (3 : Int)⟩, Arg.pstr "widgets"] []
        = some (⟨⟨true, true⟩, .WARNING, ⟨fun l ls tr => tr ++ [(l, ls)]⟩⟩,
            [(plog_level.WARNING, pfmt.pstring r)]) :=
  ⟨by decide,
    (channel_forwards_to_vlog (fun p _ _ _ => p) true .WARNING
      (⟨fun l ls tr => tr ++ [(l, ls)]⟩ : plog_dispatch_intf (List (plog_level × String)))
      "%d of %s" [Arg.templ ⟨.uint, (3 : Int)⟩, Arg.pstr "widgets"] [] false
      (by decide)).1.imp (fun _ hr => hr.2.2)⟩

/-- C9: in a bundle only the debug channel has `build_enabled` equal to
`debug_enabled`, the other five have it true.  In `plog_base<false>` the
debug channel, on arguments of registered types, never applies `vlog`,
whatever its runtime flag; each of the other five, whatever `debug_enabled`
is, applies `vlog` with its own severity exactly when its runtime flag is
true. -/
theorem bundle_gates {ω : Type} (fe : format_element_t) (cs : Bool) (debug_enabled : Bool)
    (proxy : plog_dispatch_intf ω) (v : Bool) (fmt : String) (args : List Arg) (w : ω)
    (h : ∀ a ∈ args, Arg.registered cs a = true) :
    ((plog_base.new debug_enabled proxy).debug.writer.build_enabled = debug_enabled
      ∧ (plog_base.new debug_enabled proxy).info.writer.build_enabled = true
      ∧ (plog_base.new debug_enabled proxy).verbose.writer.build_enabled = true
      ∧ (plog_base.new debug_enabled proxy).warning.writer.build_enabled = true
      ∧ (plog_base.new debug_enabled proxy).error.writer.build_enabled = true
      ∧ (plog_base.new debug_enabled proxy).fatal.writer.build_enabled = true)
    ∧ ((plog_base.new false proxy).debug.set_enabled v).call fe cs fmt args w
          = some ((plog_base.new false proxy).debug.set_enabled v, w)
    ∧ (∃ r, pfmt_writer_t.xlog fe cs (pfmt.new fmt) args = some r
      ∧ ((plog_base.new debug_enabled proxy).info.set_enabled v).call fe cs fmt args w
          = some ((plog_base.new debug_enabled proxy).info.set_enabled v,
              if v then proxy.vlog .INFO r.pstring w else w)
      ∧ ((plog_base.new debug_enabled proxy).verbose.set_enabled v).call fe cs fmt args w
          = some ((plog_base.new debug_enabled proxy).verbose.set_enabled v,
              if v then proxy.vlog .VERBOSE r.pstring w else w)
      ∧ ((plog_base.new debug_enabled proxy).warning.set_enabled v).call fe cs fmt args w
          = some ((plog_base.new debug_enabled proxy).warning.set_enabled v,
              if v then proxy.vlog .WARNING r.pstring w else w)
      ∧ ((plog_base.new debug_enabled proxy).error.set_enabled v).call fe cs fmt args w
          = some ((plog_base.new debug_enabled proxy).error.set_enabled v,
              if v then proxy.vlog .ERROR r.pstring w else w)
      ∧ ((plog_base.new debug_enabled proxy).fatal.set_enabled v).call fe cs fmt args w
          = some ((plog_base.new debug_enabled proxy).fatal.set_enabled v,
              if v then proxy.vlog .FATAL r.pstring w else w)) := by
  obtain ⟨r, hr⟩ := xlog_isSome_of_registered fe cs args (pfmt.new fmt) h
  refine ⟨⟨rfl, rfl, rfl, rfl, rfl, rfl⟩, ?_, ⟨r, hr, ?_, ?_, ?_, ?_, ?_⟩⟩
  · rw [channel_call_of_xlog fe cs _ fmt args w r hr]
    rfl
  all_goals
    rw [channel_call_of_xlog fe cs _ fmt args w r hr]
    cases v <;> rfl

/-- Witness for C9: the bundle `plog_base<false>` over a recording sink; the
debug channel with its runtime flag set to true records nothing. -/
theorem bundle_gates_witness :
    (∀ a ∈ [Arg.templ ⟨.int, (-5 : Int)⟩], Arg.registered true a = true)
    ∧ ((plog_base.new false (⟨fun l ls tr => tr ++ [(l, ls)]⟩ :
        plog_dispatch_intf (List (plog_level × String)))).debug.set_enabled true).call
          (fun p _ _ _ => p) true "%d" [Arg.templ ⟨.int, (-5 : Int)⟩] []
        = some ((plog_base.new false (⟨fun l ls tr => tr ++ [(l, ls)]⟩ :
            plog_dispatch_intf (List (plog_level × String)))).debug.set_enabled true, []) :=
  ⟨by decide,
    (bundle_gates (fun p _ _ _ => p) true false
      (⟨fun l ls tr => tr ++ [(l, ls)]⟩ : plog_dispatch_intf (List (plog_level × String)))
      true "%d" [Arg.templ ⟨.int, (-5 : Int)⟩] [] (by decide)).2.1⟩

/-- C10: a new writer or channel has its runtime flag true; after
`set_enabled(v)` the flag reads `v`; `set_enabled` leaves the severity, the
compile-time flag and the sink of a channel as they were; a logging call on
arguments of registered types returns the object unchanged, so the runtime
flag is as before. -/
theorem runtime_flag_frame {ω : Type} (fe : format_element_t) (cs : Bool)
    (self : plog_channel ω) (L : plog_level) (build_enabled : Bool)
    (b : plog_dispatch_intf ω) (v : Bool) (fmt : String) (args : List Arg) (w : ω)
    (h : ∀ a ∈ args, Arg.registered cs a = true) :
    ((pfmt_writer_t.new build_enabled).is_enabled = true
      ∧ (plog_channel.new L build_enabled b).is_enabled = true)
    ∧ ((self.writer.set_enabled v).is_enabled = v
      ∧ (self.set_enabled v).is_enabled = v)
    ∧ ((self.set_enabled v).L = self.L
      ∧ (self.set_enabled v).writer.build_enabled = self.writer.build_enabled
      ∧ (self.set_enabled v).m_base = self.m_base)
    ∧ ((∃ w1, self.call fe cs fmt args w = some (self, w1))
      ∧ (∀ r, self.call fe cs fmt args w = some r → r.1.is_enabled = self.is_enabled)) := by
  obtain ⟨r, hr⟩ := xlog_isSome_of_registered fe cs args (pfmt.new fmt) h
  have hc := channel_call_of_xlog fe cs self fmt args w r hr
  refine ⟨⟨rfl, rfl⟩, ⟨rfl, rfl⟩, ⟨rfl, rfl, rfl⟩, ⟨_, hc⟩, ?_⟩
  intro q hq
  rw [hc] at hq
  cases hq
  rfl

/-- Witness for C10: an ERROR channel over a recording sink, switched off and
then called, is returned as it was. -/
theorem runtime_flag_frame_witness :
    (∀ a ∈ [Arg.pstr "widgets"], Arg.registered true a = true)
    ∧ ∃ w1, ((plog_channel.new .ERROR true (⟨fun l ls tr => tr ++ [(l, ls)]⟩ :
        plog_dispatch_intf (List (plog_level × String)))).set_enabled false).call
          (fun p _ _ _ => p) true "%s" [Arg.pstr "widgets"] []
        = some ((plog_channel.new .ERROR true (⟨fun l ls tr => tr ++ [(l, ls)]⟩ :
            plog_dispatch_intf (List (plog_level × String)))).set_enabled false, w1) :=
  ⟨by decide,
    (runtime_flag_frame (fun p _ _ _ => p) true
      ((plog_channel.new .ERROR true (⟨fun l ls tr => tr ++ [(l, ls)]⟩ :
        plog_dispatch_intf (List (plog_level × String)))).set_enabled false)
      .ERROR true (⟨fun l ls tr => tr ++ [(l, ls)]⟩ :
        plog_dispatch_intf (List (plog_level × String)))
      false "%s" [Arg.pstr "widgets"] [] (by decide)).2.2.2.1⟩

end plib
